import Mathlib

/-!
Verification of the device-bootstrap and health-telemetry layer of the
Jetstream GPU backend (Vulkan and WebGPU device backends).

The definitions below are shallow embeddings of the C++ sources:
 - include/jetstream/backend/telemetry.hh (pure classification rules),
 - src/backend/devices/vulkan/base.cc (capability negotiation, device
   selection, resource bootstrap, NVML / tooling-info telemetry, the
   native polling scheduler),
 - src/backend/devices/webgpu/base.cc (browser telemetry provider and
   the cooperative self-rescheduling callback chain).
Machine integers (U32/U64) are modelled as Nat, with an explicit
`% 2 ^ 32` at the single point where the source narrows a 64-bit value
back to U32.  Logging is modelled by returning the emitted warnings as
data; a fatal log followed by a throw is modelled with `Except`.
-/

namespace JetstreamSpec

/-! ## Pure telemetry classification rules (telemetry.hh) -/

/-- Function `ThermalBucketFromCelsius` from telemetry.hh: 95°C and above is bucket 3,
85°C bucket 2, 75°C bucket 1, below 75°C bucket 0. -/
def ThermalBucketFromCelsius (temperatureC : Nat) : Nat :=
  if temperatureC ≥ 95 then 3
  else if temperatureC ≥ 85 then 2
  else if temperatureC ≥ 75 then 1
  else 0

/-- Function `IsLowPowerFromPState` from telemetry.hh: low power iff the performance
state is at least 8. -/
def IsLowPowerFromPState (pState : Nat) : Bool :=
  decide (pState ≥ 8)

/-- Function `IsLowPowerFromPowerBudget` from telemetry.hh.  The product
`currentMilliwatts * 100ull` is exact 64-bit arithmetic, but the quotient is
narrowed back to U32 by `static_cast<U32>`, hence the `% 2 ^ 32`. -/
def IsLowPowerFromPowerBudget (currentMilliwatts budgetMilliwatts utilizationThresholdPercent : Nat) : Bool :=
  if budgetMilliwatts = 0 then
    false
  else
    let utilizationPercent := (currentMilliwatts * 100 / budgetMilliwatts) % 2 ^ 32
    decide (utilizationPercent < utilizationThresholdPercent)

/-! ## Capability negotiation (vulkan/base.cc, constructor) -/

/-- Common body of `checkInstanceExtensionSupport`, `checkValidationLayerSupport`
and `checkDeviceExtensionSupport`: walk the available names and collect, as a
set, those contained in the requested set. -/
def supportedNames (available requested : List String) : List String :=
  (available.filter (fun e => decide (e ∈ requested))).dedup

/-- Method `Vulkan::checkInstanceExtensionSupport`. -/
def checkInstanceExtensionSupport (available requested : List String) : List String :=
  supportedNames available requested

/-- Method `Vulkan::checkValidationLayerSupport`. -/
def checkValidationLayerSupport (available requested : List String) : List String :=
  supportedNames available requested

/-- The "Gather instance extensions" block of the Vulkan constructor
(lines 172-203): build the supported subset of the required extensions, abort
fatally (before `vkCreateInstance` runs) if any required extension is
unsupported, otherwise merge the supported optional extensions and warn once
per missing optional extension.  `Except.error` carries the unsupported
required set at the fatal throw; `Except.ok` carries the supported set and the
list of optional extensions warned about. -/
def negotiateInstanceExtensions (available required optional : List String) :
    Except (List String) (List String × List String) :=
  let supportedAfterRequired := checkInstanceExtensionSupport available required
  let unsupported := required.filter (fun e => decide (e ∉ supportedAfterRequired))
  if unsupported.isEmpty then
    let supported := supportedAfterRequired.union (checkInstanceExtensionSupport available optional)
    let warned := optional.filter (fun e => decide (e ∉ supported))
    Except.ok (supported, warned)
  else
    Except.error unsupported

/-- Method `Vulkan::getRequiredValidationLayers`. -/
def getRequiredValidationLayers : List String :=
  ["VK_LAYER_KHRONOS_validation"]

/-- Outcome of the "Gather validation layers" block: the (possibly downgraded)
`config.validationEnabled`, the supported layer list, and how many warnings
were logged. -/
structure ValidationNegotiation where
  validationEnabled : Bool
  validationLayers : List String
  warningsEmitted : Nat
  deriving Repr, DecidableEq

/-- The "Gather validation layers" block of the Vulkan constructor
(lines 207-220): if validation is requested but not all required layers are
supported, warn once and downgrade `validationEnabled` to false; never
fatal. -/
def negotiateValidationLayers (validationEnabled : Bool) (availableLayers : List String) :
    ValidationNegotiation :=
  let requiredValidationLayers := getRequiredValidationLayers
  let supportedValidationLayers := checkValidationLayerSupport availableLayers requiredValidationLayers
  let validationLayerCheck := requiredValidationLayers.length == supportedValidationLayers.length
  if validationEnabled && !validationLayerCheck then
    { validationEnabled := false
      validationLayers := supportedValidationLayers
      warningsEmitted := 1 }
  else
    { validationEnabled := validationEnabled
      validationLayers := supportedValidationLayers
      warningsEmitted := 0 }

/-! ## Physical device selection (vulkan/base.cc, lines 293-337) -/

/-- The configuration fields consumed by the Vulkan backend constructor
(`Vulkan::Config`). -/
structure VulkanConfig where
  deviceId : Nat
  headless : Bool
  validationEnabled : Bool
  multisampling : Nat
  stagingBufferSize : Nat
  deriving Repr, DecidableEq

/-- Queue family indices of a candidate device.
Modelled from the spec: `FindQueueFamilies` and `isComplete` live in
vulkan/helpers.hh, which is not among the sources; §4.2 of the spec defines a
candidate queue set as complete when all three roles (graphics, compute,
present) are exposed. -/
structure QueueFamilyIndices where
  graphicFamily : Option Nat
  computeFamily : Option Nat
  presentFamily : Option Nat
  deriving Repr, DecidableEq

/-- Modelled from the spec: completeness of the queue roles (presence of all
three, which may collapse to the same family). -/
def QueueFamilyIndices.isComplete (q : QueueFamilyIndices) : Bool :=
  q.graphicFamily.isSome && q.computeFamily.isSome && q.presentFamily.isSome

/-- One enumerated physical device: the device-level extensions it advertises
and its queue families. -/
structure PhysicalDevice where
  deviceExtensions : List String
  queueFamilies : QueueFamilyIndices
  deriving Repr, DecidableEq

/-- Method `Vulkan::getRequiredDeviceExtensions`: the swapchain extension unless
running headless. -/
def getRequiredDeviceExtensions (headless : Bool) : List String :=
  if headless then [] else ["VK_KHR_swapchain"]

/-- Method `Vulkan::checkDeviceExtensionSupport` for one candidate device. -/
def checkDeviceExtensionSupport (d : PhysicalDevice) (requested : List String) : List String :=
  supportedNames d.deviceExtensions requested

/-- The per-candidate filter of the "Get physical device" block: the
required-extension size check and the queue-family completeness check. -/
def deviceIsValid (headless : Bool) (d : PhysicalDevice) : Bool :=
  let requiredExtensions := getRequiredDeviceExtensions headless
  let supportedExtensions := checkDeviceExtensionSupport d requiredExtensions
  (requiredExtensions.length == supportedExtensions.length) && d.queueFamilies.isComplete

/-- The "Get physical device" block of the Vulkan constructor: fatal if zero
devices are enumerated, if the configured id is out of range of the raw list,
if zero candidates pass both filters, or if the id is out of range of the
valid list; otherwise pick the valid candidate at ordinal index
`config.deviceId`. -/
def selectPhysicalDevice (cfg : VulkanConfig) (physicalDevices : List PhysicalDevice) :
    Except Unit PhysicalDevice :=
  if physicalDevices.length = 0 then
    Except.error ()
  else if physicalDevices.length ≤ cfg.deviceId then
    Except.error ()
  else
    let validPhysicalDevices := physicalDevices.filter (deviceIsValid cfg.headless)
    if validPhysicalDevices.length = 0 then
      Except.error ()
    else if validPhysicalDevices.length ≤ cfg.deviceId then
      Except.error ()
    else
      match validPhysicalDevices[cfg.deviceId]? with
      | some d => Except.ok d
      | none => Except.error ()

/-- A headless configuration asking for device ordinal 1, used as concrete
input by witnesses. -/
def vulkanConfigExample : VulkanConfig :=
  { deviceId := 1, headless := true, validationEnabled := false
    multisampling := 1, stagingBufferSize := 32 }

/-- A complete queue family triple, used as concrete input by witnesses. -/
def completeQueues : QueueFamilyIndices :=
  { graphicFamily := some 0, computeFamily := some 0, presentFamily := some 0 }

/-- Four enumerated devices of which the second fails the queue-family
completeness filter, used as concrete input by witnesses. -/
def physicalDevicesExample : List PhysicalDevice :=
  [ { deviceExtensions := ["d0"], queueFamilies := completeQueues },
    { deviceExtensions := ["dBad"],
      queueFamilies := { graphicFamily := none, computeFamily := some 0, presentFamily := some 0 } },
    { deviceExtensions := ["d1"], queueFamilies := completeQueues },
    { deviceExtensions := ["d2"], queueFamilies := completeQueues } ]

/-! ## Resource bootstrap (vulkan/base.cc, lines 497-607) -/

/-- The native handles acquired by the resource-bootstrap blocks of the
constructor. -/
inductive VkResource where
  | descriptorPool
  | stagingBuffer
  | stagingBufferMemory
  | stagingBufferMapping
  | commandPool
  | commandBuffer
  | fence
  deriving Repr, DecidableEq

/-- The ordered resource-bootstrap steps, each with the native handle it
acquires: vkCreateDescriptorPool, vkCreateBuffer, vkAllocateMemory,
vkBindBufferMemory (acquires nothing), vkMapMemory, vkCreateCommandPool,
vkAllocateCommandBuffers, vkCreateFence. -/
def bootstrapAcquisitions : List (Option VkResource) :=
  [ some VkResource.descriptorPool,
    some VkResource.stagingBuffer,
    some VkResource.stagingBufferMemory,
    none,
    some VkResource.stagingBufferMapping,
    some VkResource.commandPool,
    some VkResource.commandBuffer,
    some VkResource.fence ]

/-- Run the bootstrap steps from index `i` with `acquired` already held.
`failAt = some n` injects an allocation failure at step `n`; the failing
`JST_VK_CHECK_THROW` logs fatal and throws out of the constructor without
releasing anything (the destructor of a partially constructed object does not
run), so `Except.error` carries every resource still acquired at the throw. -/
def runBootstrapSteps : List (Option VkResource) → Nat → Option Nat → List VkResource →
    Except (List VkResource) (List VkResource)
  | [], _, _, acquired => Except.ok acquired
  | step :: rest, i, failAt, acquired =>
    if failAt = some i then
      Except.error acquired
    else
      runBootstrapSteps rest (i + 1) failAt (acquired ++ step.toList)

/-- The resource bootstrap with an allocation failure injected at step
`failAt` (`none` for no failure). -/
def runResourceBootstrap (failAt : Option Nat) : Except (List VkResource) (List VkResource) :=
  runBootstrapSteps bootstrapAcquisitions 0 failAt []

/-! ## Telemetry providers (vulkan/base.cc and webgpu/base.cc) -/

/-- The dynamic fields of the information cache: `cache.lowPowerStatus` and
`cache.getThermalState` (each an independent atomic in the source). -/
structure TelemetryCache where
  lowPowerStatus : Bool
  thermalState : Nat
  deriving Repr, DecidableEq

/-- Results of the four NVML queries of one poll; `none` models a
non-success `nvmlReturn_t`. -/
structure NvmlQueryResults where
  powerState : Option Nat
  temperature : Option Nat
  powerUsage : Option Nat
  powerLimit : Option Nat
  deriving Repr, DecidableEq

/-- The three warning classes `Vulkan::updateTelemetryFromNvml` can log. -/
inductive NvmlWarning where
  | powerState
  | temperature
  | powerBudget
  deriving Repr, DecidableEq

/-- Method `Vulkan::updateTelemetryFromNvml`: three query blocks run in order; a
successful query stores the classified value into the cache, a failed one
logs a warning only while `telemetryRuntime.providerErrorLogged` (one flag
shared by all three classes) is still clear, and then sets that flag.
Returns the updated cache, the updated flag, and the warnings logged. -/
def updateTelemetryFromNvml (q : NvmlQueryResults) (cache : TelemetryCache)
    (providerErrorLogged : Bool) : TelemetryCache × Bool × List NvmlWarning :=
  let step1 : TelemetryCache × Bool × List NvmlWarning :=
    match q.powerState with
    | some p => ({ cache with lowPowerStatus := IsLowPowerFromPState p }, providerErrorLogged, [])
    | none =>
      if !providerErrorLogged then (cache, true, [NvmlWarning.powerState])
      else (cache, providerErrorLogged, [])
  let (cache1, logged1, w1) := step1
  let step2 : TelemetryCache × Bool × List NvmlWarning :=
    match q.temperature with
    | some t => ({ cache1 with thermalState := ThermalBucketFromCelsius t }, logged1, [])
    | none =>
      if !logged1 then (cache1, true, [NvmlWarning.temperature])
      else (cache1, logged1, [])
  let (cache2, logged2, w2) := step2
  let step3 : TelemetryCache × Bool × List NvmlWarning :=
    match q.powerUsage, q.powerLimit with
    | some u, some b =>
      ({ cache2 with lowPowerStatus := IsLowPowerFromPowerBudget u b 30 }, logged2, [])
    | _, _ =>
      if !logged2 then (cache2, true, [NvmlWarning.powerBudget])
      else (cache2, logged2, [])
  let (cache3, logged3, w3) := step3
  (cache3, logged3, w1 ++ w2 ++ w3)

/-- A session of successive NVML polls, threading the cache and the shared
suppressed-error flag and concatenating the warnings. -/
def runNvmlPolls (qs : List NvmlQueryResults) (cache : TelemetryCache)
    (providerErrorLogged : Bool) : TelemetryCache × Bool × List NvmlWarning :=
  match qs with
  | [] => (cache, providerErrorLogged, [])
  | q :: rest =>
    let (c1, e1, w1) := updateTelemetryFromNvml q cache providerErrorLogged
    let (c2, e2, w2) := runNvmlPolls rest c1 e1
    (c2, e2, w1 ++ w2)

/-- One `vkGetPhysicalDeviceToolPropertiesEXT` round: whether the count call
and the properties call succeed, and whether any returned tool has the
monitoring purpose bit. -/
structure ToolingQuery where
  countOk : Bool
  listOk : Bool
  monitoringToolPresent : Bool
  deriving Repr, DecidableEq

/-- The two warning classes `Vulkan::updateTelemetryFromToolingInfo` can
log. -/
inductive ToolingWarning where
  | countFailed
  | propertiesFailed
  deriving Repr, DecidableEq

/-- Method `Vulkan::updateTelemetryFromToolingInfo`: on a failed count or
properties call, warn once (same shared flag) and leave the cache untouched;
on success, a present monitoring tool means not-low-power and thermal bucket
1, an absent one low-power and bucket 0. -/
def updateTelemetryFromToolingInfo (q : ToolingQuery) (cache : TelemetryCache)
    (providerErrorLogged : Bool) : TelemetryCache × Bool × List ToolingWarning :=
  if !q.countOk then
    if !providerErrorLogged then (cache, true, [ToolingWarning.countFailed])
    else (cache, providerErrorLogged, [])
  else if !q.listOk then
    if !providerErrorLogged then (cache, true, [ToolingWarning.propertiesFailed])
    else (cache, providerErrorLogged, [])
  else
    ({ lowPowerStatus := !q.monitoringToolPresent
       thermalState := if q.monitoringToolPresent then 1 else 0 },
     providerErrorLogged, [])

/-- The telemetry state of the WebGPU backend: the two dynamic cache fields, the
two per-class warning flags, and the `telemetryActive` liveness flag of the
cooperative callback chain. -/
structure WebGPUTelemetryState where
  lowPowerStatus : Bool
  thermalState : Nat
  lowPowerWarningLogged : Bool
  thermalWarningLogged : Bool
  telemetryActive : Bool
  deriving Repr, DecidableEq

/-- The WebGPU state right after the constructor: defaults stored, telemetry
active, no warning logged yet. -/
def webGPUConstructedState : WebGPUTelemetryState :=
  { lowPowerStatus := false
    thermalState := 0
    lowPowerWarningLogged := false
    thermalWarningLogged := false
    telemetryActive := true }

/-- The two warning classes `WebGPU::refreshTelemetry` can log. -/
inductive WebGPUWarning where
  | lowPower
  | thermal
  deriving Repr, DecidableEq

/-- Method `WebGPU::refreshTelemetry`: a negative hint means the browser does not
expose the signal; each of the two classes has its own once-per-session
warning flag, and a field keeps its last value when its hint is missing. -/
def refreshTelemetry (lowPowerHint thermalBucket : Int) (s : WebGPUTelemetryState) :
    WebGPUTelemetryState × List WebGPUWarning :=
  let (s1, w1) :=
    if lowPowerHint ≥ 0 then
      ({ s with lowPowerStatus := lowPowerHint == 1 }, ([] : List WebGPUWarning))
    else if !s.lowPowerWarningLogged then
      ({ s with lowPowerWarningLogged := true }, [WebGPUWarning.lowPower])
    else
      (s, [])
  let (s2, w2) :=
    if thermalBucket ≥ 0 then
      ({ s1 with thermalState := thermalBucket.toNat }, ([] : List WebGPUWarning))
    else if !s1.thermalWarningLogged then
      ({ s1 with thermalWarningLogged := true }, [WebGPUWarning.thermal])
    else
      (s1, [])
  (s2, w1 ++ w2)

/-- A session of successive browser refreshes with the hint pair observed at
each firing. -/
def runWebGPURefreshes (hints : List (Int × Int)) (s : WebGPUTelemetryState) :
    WebGPUTelemetryState × List WebGPUWarning :=
  match hints with
  | [] => (s, [])
  | (lh, th) :: rest =>
    let (s1, w1) := refreshTelemetry lh th s
    let (s2, w2) := runWebGPURefreshes rest s1
    (s2, w1 ++ w2)

/-- Method `WebGPU::scheduleTelemetryRefresh`: a deferred callback is scheduled only
while `telemetryActive` holds. -/
def scheduleTelemetryRefresh (s : WebGPUTelemetryState) : Bool :=
  s.telemetryActive

/-- Method `WebGPU::TelemetryPump`: the fired callback is a no-op on a null self
pointer or once `telemetryActive` has been cleared; otherwise it refreshes
once and reschedules itself.  Returns the state, whether a poll ran, and
whether the next callback was scheduled. -/
def telemetryPump (self : Option WebGPUTelemetryState) (lowPowerHint thermalBucket : Int) :
    Option WebGPUTelemetryState × Bool × Bool :=
  match self with
  | none => (none, false, false)
  | some s =>
    if !s.telemetryActive then
      (some s, false, false)
    else
      let (s1, _w) := refreshTelemetry lowPowerHint thermalBucket s
      (some s1, true, scheduleTelemetryRefresh s1)

/-! ## Native telemetry scheduler (vulkan/base.cc, lines 695-715) -/

/-- Struct `telemetryRuntime`: the `running` flag, the shared suppressed-error flag,
and the dedicated worker thread abstracted as a count of live workers. -/
structure TelemetryRuntime where
  running : Bool
  providerErrorLogged : Bool
  activeWorkers : Nat
  deriving Repr, DecidableEq

/-- The runtime before any telemetry work: Stopped, no worker. -/
def telemetryRuntimeInit : TelemetryRuntime :=
  { running := false, providerErrorLogged := false, activeWorkers := 0 }

/-- Method `Vulkan::startTelemetryPolling`: no-op when already running; otherwise
set `running`, clear the suppressed-error flag and spawn the one worker. -/
def startTelemetryPolling (r : TelemetryRuntime) : TelemetryRuntime :=
  if r.running then r
  else
    { running := true, providerErrorLogged := false, activeWorkers := r.activeWorkers + 1 }

/-- Method `Vulkan::stopTelemetryPolling`: exchange `running` to false; when it was
running, join the worker — the worker observes the cleared flag at the top of
its loop, exits, and the join retires it, so no further poll begins after the
call returns. -/
def stopTelemetryPolling (r : TelemetryRuntime) : TelemetryRuntime :=
  let wasRunning := r.running
  if wasRunning then
    { running := false
      providerErrorLogged := r.providerErrorLogged
      activeWorkers := r.activeWorkers - 1 }
  else
    { r with running := false }

/-- The client-visible scheduler operations. -/
inductive TelemetryOp where
  | start
  | stop
  deriving Repr, DecidableEq

/-- Apply one scheduler operation. -/
def applyTelemetryOp (r : TelemetryRuntime) : TelemetryOp → TelemetryRuntime
  | TelemetryOp.start => startTelemetryPolling r
  | TelemetryOp.stop => stopTelemetryPolling r

/-- Apply a sequence of scheduler operations from the initial Stopped
state. -/
def runTelemetryOps (ops : List TelemetryOp) : TelemetryRuntime :=
  ops.foldl applyTelemetryOp telemetryRuntimeInit

/-! ## Telemetry provider chain commit (vulkan/base.cc, lines 628-693) -/

/-- Enum `Telemetry::Provider` from telemetry.hh. -/
inductive Provider where
  | NONE
  | NVML
  | RADEON_SMI
  | TOOLING_INFO
  | BROWSER
  deriving Repr, DecidableEq

/-- The environment the provider chain probes: build-time NVML presence,
vendor id match, the two NVML setup outcomes, tooling-info extension support
and its function pointer, and the query data a first poll would observe. -/
structure VulkanTelemetryEnv where
  hasNvmlBuild : Bool
  vendorIsNvidia : Bool
  nvmlInitOk : Bool
  nvmlDeviceOk : Bool
  toolingExtensionSupported : Bool
  toolingFnAvailable : Bool
  nvmlQueries : NvmlQueryResults
  toolingQuery : ToolingQuery
  deriving Repr, DecidableEq

/-- Method `Vulkan::setupNvmlTelemetry`: succeeds only when the NVML library is
compiled in, `nvmlInit_v2` succeeds and the device handle is obtained. -/
def setupNvmlTelemetry (env : VulkanTelemetryEnv) : Bool :=
  if env.hasNvmlBuild then
    if !env.nvmlInitOk then false
    else if !env.nvmlDeviceOk then false
    else true
  else false

/-- Result of the telemetry chain: committed provider, cache after the first
poll (or the constructor defaults), and the scheduler runtime. -/
structure TelemetryInit where
  provider : Provider
  cache : TelemetryCache
  runtime : TelemetryRuntime
  deriving Repr, DecidableEq

/-- The telemetry bootstrap of the constructor (`initializeTelemetry`): try
NVML first (only for an NVIDIA device with the library compiled in), then the
tooling-info capability; on commit poll once and start the scheduler; with no
provider, keep the constructor defaults (`lowPowerStatus=false`,
`thermalBucket=0`) and start no background work. -/
def telemetryInit (env : VulkanTelemetryEnv) : TelemetryInit :=
  let cache0 : TelemetryCache := { lowPowerStatus := false, thermalState := 0 }
  let nvmlReady := env.hasNvmlBuild && env.vendorIsNvidia && setupNvmlTelemetry env
  if nvmlReady then
    let (c, e, _w) := updateTelemetryFromNvml env.nvmlQueries cache0 false
    { provider := Provider.NVML
      cache := c
      runtime := startTelemetryPolling
        { running := false, providerErrorLogged := e, activeWorkers := 0 } }
  else if env.toolingExtensionSupported && env.toolingFnAvailable then
    let (c, e, _w) := updateTelemetryFromToolingInfo env.toolingQuery cache0 false
    { provider := Provider.TOOLING_INFO
      cache := c
      runtime := startTelemetryPolling
        { running := false, providerErrorLogged := e, activeWorkers := 0 } }
  else
    { provider := Provider.NONE, cache := cache0, runtime := telemetryRuntimeInit }

/-- The constructor defaults of the dynamic cache fields (lines 366-367). -/
def telemetryCacheInit : TelemetryCache :=
  { lowPowerStatus := false, thermalState := 0 }

/-- A poll in which the power-state and temperature queries fail for the
first time while the power usage/budget queries succeed, used as concrete
input by witnesses and counterexamples. -/
def nvmlFirstFailureExample : NvmlQueryResults :=
  { powerState := none, temperature := none, powerUsage := some 5, powerLimit := some 10 }

/-- An environment in which no telemetry provider can commit, used as
concrete input by witnesses. -/
def telemetryEnvNoneExample : VulkanTelemetryEnv :=
  { hasNvmlBuild := false
    vendorIsNvidia := false
    nvmlInitOk := false
    nvmlDeviceOk := false
    toolingExtensionSupported := false
    toolingFnAvailable := false
    nvmlQueries := nvmlFirstFailureExample
    toolingQuery := { countOk := false, listOk := false, monitoringToolPresent := false } }

end JetstreamSpec

namespace JetstreamSpec

/-! ## Supporting lemmas about the supported-subset computation -/

theorem mem_supportedNames {a r : List String} {e : String} :
    e ∈ supportedNames a r ↔ e ∈ a ∧ e ∈ r := by
  simp [supportedNames, List.mem_dedup, List.mem_filter]

theorem nodup_supportedNames (a r : List String) : (supportedNames a r).Nodup :=
  List.nodup_dedup _

theorem supportedNames_subset (a r : List String) : supportedNames a r ⊆ r :=
  fun _ he => (mem_supportedNames.mp he).2

theorem length_supportedNames {a r : List String} (h : r.Nodup) :
    (supportedNames a r).length = r.length ↔ ∀ x ∈ r, x ∈ a := by
  constructor
  · intro hlen x hx
    have hsub : List.Subperm (supportedNames a r) r :=
      List.subperm_of_subset (nodup_supportedNames a r) (supportedNames_subset a r)
    have hperm : List.Perm (supportedNames a r) r :=
      hsub.perm_of_length_le (le_of_eq hlen.symm)
    exact (mem_supportedNames.mp (hperm.mem_iff.mpr hx)).1
  · intro hall
    have h1 : List.Subperm (supportedNames a r) r :=
      List.subperm_of_subset (nodup_supportedNames a r) (supportedNames_subset a r)
    have h2 : List.Subperm r (supportedNames a r) :=
      List.subperm_of_subset h (fun x hx => mem_supportedNames.mpr ⟨hall x hx, hx⟩)
    exact (h1.antisymm h2).length_eq

/-! ## Theorems for claims C6 and C7 -/

/-- Claim C6: `ThermalBucketFromCelsius` returns 3 for t ≥ 95, 2 for
85 ≤ t < 95, 1 for 75 ≤ t < 85, 0 otherwise; it is monotone
non-decreasing; and the boundary table 60→0, 76→1, 88→2, 100→3 holds with
exactly 75/85/95 mapping to the higher bucket. -/
theorem c6_thermal_bucket :
    (∀ t : Nat, 95 ≤ t → ThermalBucketFromCelsius t = 3) ∧
    (∀ t : Nat, 85 ≤ t → t < 95 → ThermalBucketFromCelsius t = 2) ∧
    (∀ t : Nat, 75 ≤ t → t < 85 → ThermalBucketFromCelsius t = 1) ∧
    (∀ t : Nat, t < 75 → ThermalBucketFromCelsius t = 0) ∧
    (∀ a b : Nat, a ≤ b → ThermalBucketFromCelsius a ≤ ThermalBucketFromCelsius b) ∧
    ThermalBucketFromCelsius 60 = 0 ∧ ThermalBucketFromCelsius 76 = 1 ∧
    ThermalBucketFromCelsius 88 = 2 ∧ ThermalBucketFromCelsius 100 = 3 ∧
    ThermalBucketFromCelsius 75 = 1 ∧ ThermalBucketFromCelsius 85 = 2 ∧
    ThermalBucketFromCelsius 95 = 3 := by
  refine ⟨?_, ?_, ?_, ?_, ?_, by decide, by decide, by decide, by decide,
          by decide, by decide, by decide⟩
  · intro t h; unfold ThermalBucketFromCelsius; split_ifs <;> omega
  · intro t h h2; unfold ThermalBucketFromCelsius; split_ifs <;> omega
  · intro t h h2; unfold ThermalBucketFromCelsius; split_ifs <;> omega
  · intro t h; unfold ThermalBucketFromCelsius; split_ifs <;> omega
  · intro a b h; unfold ThermalBucketFromCelsius; split_ifs <;> omega

/-- Witness for C6 at concrete temperatures. -/
theorem c6_thermal_bucket_witness :
    ThermalBucketFromCelsius 96 = 3 ∧ ThermalBucketFromCelsius 90 = 2 ∧
    ThermalBucketFromCelsius 80 = 1 ∧ ThermalBucketFromCelsius 10 = 0 ∧
    ThermalBucketFromCelsius 74 ≤ ThermalBucketFromCelsius 99 :=
  ⟨c6_thermal_bucket.1 96 (by omega),
   c6_thermal_bucket.2.1 90 (by omega) (by omega),
   c6_thermal_bucket.2.2.1 80 (by omega) (by omega),
   c6_thermal_bucket.2.2.2.1 10 (by omega),
   c6_thermal_bucket.2.2.2.2.1 74 99 (by omega)⟩

/-- Counterexample to claim C7 as stated: at currentMilliwatts = 2 ^ 30 and
budgetMilliwatts = 1 (both representable in U32), the true 64-bit quotient is
2 ^ 30 * 100 = 25 * 2 ^ 32, far above the 30 percent threshold, yet the
`static_cast<U32>` narrowing wraps it to 0 and the function returns `true`. -/
theorem c7_counterexample :
    IsLowPowerFromPowerBudget (2 ^ 30) 1 30 = true ∧ ¬(2 ^ 30 * 100 / 1 < 30) := by
  constructor
  · decide
  · decide

/-- Claim C7 as amended: a zero budget is never low power; for a non-zero
budget the result is `(x * 100 / b) % 2 ^ 32 < 30` — the claimed
`(x * 100 / b) < 30` characterisation additionally holds whenever the 64-bit
quotient fits in U32 (so a ratio of exactly the threshold is not low power);
and the example points of the spec evaluate as claimed. -/
theorem c7_low_power_budget (x b : Nat) :
    IsLowPowerFromPowerBudget x 0 30 = false ∧
    (b ≠ 0 → (IsLowPowerFromPowerBudget x b 30 = true ↔ (x * 100 / b) % 2 ^ 32 < 30)) ∧
    (b ≠ 0 → x * 100 / b < 2 ^ 32 →
      (IsLowPowerFromPowerBudget x b 30 = true ↔ x * 100 / b < 30)) ∧
    IsLowPowerFromPowerBudget 10000 60000 30 = true ∧
    IsLowPowerFromPowerBudget 40000 60000 30 = false := by
  refine ⟨by simp [IsLowPowerFromPowerBudget], ?_, ?_, by decide, by decide⟩
  · intro hb
    simp [IsLowPowerFromPowerBudget, hb]
  · intro hb hfit
    simp only [IsLowPowerFromPowerBudget, hb, if_false, decide_eq_true_eq]
    rw [Nat.mod_eq_of_lt hfit]

/-- Witness for C7 (amended) at x = 10000, b = 60000: utilization 16 percent
is low power. -/
theorem c7_low_power_budget_witness :
    IsLowPowerFromPowerBudget 10000 60000 30 = true ∧
    (10000 * 100 / 60000) % 2 ^ 32 < 30 :=
  ⟨((c7_low_power_budget 10000 60000).2.1 (by decide)).mpr (by decide),
   ((c7_low_power_budget 10000 60000).2.1 (by decide)).mp
     ((c7_low_power_budget 10000 60000).2.2.2.1)⟩

/-! ## Theorems for claims C3 and C5 -/

/-- Claim C3: if any required instance capability is absent from the available
set, negotiation aborts fatally (the `Except.error` throw precedes the
`vkCreateInstance` call, so no native instance object is created); otherwise
negotiation succeeds and every absent optional capability is warned about
exactly once and is not part of the supported set the construction continues
with. -/
theorem c3_instance_negotiation (available required optional : List String)
    (hopt : optional.Nodup) :
    ((∃ r ∈ required, r ∉ available) →
       (negotiateInstanceExtensions available required optional).isOk = false) ∧
    ((∀ r ∈ required, r ∈ available) →
       ∃ s w, negotiateInstanceExtensions available required optional = Except.ok (s, w) ∧
         (∀ e ∈ optional, e ∉ available → w.count e = 1) ∧
         (∀ e ∈ optional, e ∈ available → e ∉ w) ∧
         (∀ e ∈ w, e ∉ s)) := by
  constructor
  · rintro ⟨r, hr, hra⟩
    have hrns : r ∉ supportedNames available required := fun hmem =>
      hra (mem_supportedNames.mp hmem).1
    have hmemf : r ∈ required.filter
        (fun e => decide (e ∉ supportedNames available required)) :=
      List.mem_filter.mpr ⟨hr, by simpa using hrns⟩
    have hne : ¬(required.filter
        (fun e => decide (e ∉ supportedNames available required))).isEmpty := by
      cases hfe : (required.filter
          (fun e => decide (e ∉ supportedNames available required))) with
      | nil => rw [hfe] at hmemf; cases hmemf
      | cons x xs => simp [hfe]
    simp only [negotiateInstanceExtensions, checkInstanceExtensionSupport]
    rw [if_neg hne]
    rfl
  · intro hall
    have hempty : (required.filter
        (fun e => decide (e ∉ supportedNames available required))).isEmpty := by
      rw [List.isEmpty_iff]
      rw [List.filter_eq_nil_iff]
      intro e he
      simpa using mem_supportedNames.mpr ⟨hall e he, he⟩
    simp only [negotiateInstanceExtensions, checkInstanceExtensionSupport]
    rw [if_pos hempty]
    refine ⟨_, _, rfl, ?_, ?_, ?_⟩
    · intro e he hea
      have hnotin : e ∉ (supportedNames available required).union
          (supportedNames available optional) := by
        intro hmem
        rcases List.mem_union_iff.mp hmem with hm | hm
        · exact hea (mem_supportedNames.mp hm).1
        · exact hea (mem_supportedNames.mp hm).1
      have hw : e ∈ optional.filter (fun x => decide (x ∉
          (supportedNames available required).union (supportedNames available optional))) :=
        List.mem_filter.mpr ⟨he, by simpa using hnotin⟩
      exact List.count_eq_one_of_mem (hopt.filter _) hw
    · intro e he hea hw
      have hin : e ∈ (supportedNames available required).union
          (supportedNames available optional) :=
        List.mem_union_iff.mpr (Or.inr (mem_supportedNames.mpr ⟨hea, he⟩))
      have := (List.mem_filter.mp hw).2
      simp only [decide_eq_true_eq] at this
      exact this hin
    · intro e hw
      have := (List.mem_filter.mp hw).2
      simpa using this

/-- Witness for C3: with required = [A, B] but only A available, negotiation
fails; with required = [A] available and optional = [B] missing, negotiation
succeeds with exactly one warning for B. -/
theorem c3_instance_negotiation_witness :
    (negotiateInstanceExtensions ["A"] ["A", "B"] ["C"]).isOk = false ∧
    (∃ s w, negotiateInstanceExtensions ["A"] ["A"] ["B"] = Except.ok (s, w) ∧
       (∀ e ∈ ["B"], e ∉ ["A"] → w.count e = 1) ∧
       (∀ e ∈ ["B"], e ∈ ["A"] → e ∉ w) ∧
       (∀ e ∈ w, e ∉ s)) :=
  ⟨(c3_instance_negotiation ["A"] ["A", "B"] ["C"] (by simp)).1
     ⟨"B", by simp, by simp⟩,
   (c3_instance_negotiation ["A"] ["A"] ["B"] (by simp)).2 (by simp)⟩

/-- Counterexample to claim C5 as stated: with validation requested and the
required layer unavailable, the code does emit a user-visible diagnostic (the
missing-validation-layers warning), so the downgrade is not silent. -/
theorem c5_counterexample :
    (negotiateValidationLayers true []).validationEnabled = false ∧
    (negotiateValidationLayers true []).warningsEmitted ≠ 0 := by
  constructor
  · rfl
  · decide

/-- Claim C5 as amended: if validation is requested but the required
validation layer is unsupported, construction does not fail — the block
downgrades `validationEnabled` to false and proceeds — but it emits exactly
one warning rather than staying silent; when validation is not requested, or
the layer is supported, nothing is downgraded and no warning is emitted. -/
theorem c5_validation_downgrade (validationEnabled : Bool) (availableLayers : List String) :
    (validationEnabled = true → "VK_LAYER_KHRONOS_validation" ∉ availableLayers →
       negotiateValidationLayers validationEnabled availableLayers =
         { validationEnabled := false
           validationLayers := checkValidationLayerSupport availableLayers getRequiredValidationLayers
           warningsEmitted := 1 }) ∧
    (validationEnabled = true → "VK_LAYER_KHRONOS_validation" ∈ availableLayers →
       negotiateValidationLayers validationEnabled availableLayers =
         { validationEnabled := true
           validationLayers := checkValidationLayerSupport availableLayers getRequiredValidationLayers
           warningsEmitted := 0 }) ∧
    (validationEnabled = false →
       negotiateValidationLayers validationEnabled availableLayers =
         { validationEnabled := false
           validationLayers := checkValidationLayerSupport availableLayers getRequiredValidationLayers
           warningsEmitted := 0 }) := by
  have hnodup : getRequiredValidationLayers.Nodup := by
    simp [getRequiredValidationLayers]
  have hchar : (supportedNames availableLayers getRequiredValidationLayers).length =
      getRequiredValidationLayers.length ↔
      "VK_LAYER_KHRONOS_validation" ∈ availableLayers := by
    rw [length_supportedNames hnodup]
    simp [getRequiredValidationLayers]
  refine ⟨?_, ?_, ?_⟩
  · intro hv hmem
    have hne : ¬((getRequiredValidationLayers.length ==
        (checkValidationLayerSupport availableLayers getRequiredValidationLayers).length) = true) := by
      rw [beq_iff_eq]
      intro heq
      exact hmem (hchar.mp heq.symm)
    simp only [negotiateValidationLayers, hv]
    rw [if_pos (by simp [Bool.and_eq_true, hne])]
  · intro hv hmem
    have heq : (getRequiredValidationLayers.length ==
        (checkValidationLayerSupport availableLayers getRequiredValidationLayers).length) = true := by
      rw [beq_iff_eq]
      exact (hchar.mpr hmem).symm
    simp only [negotiateValidationLayers, hv]
    rw [if_neg (by simp [heq])]
  · intro hv
    simp only [negotiateValidationLayers, hv]
    rw [if_neg (by simp)]

/-- Witness for C5 (amended): validation requested with no layers available is
downgraded with one warning; validation requested with the layer available is
kept with no warning. -/
theorem c5_validation_downgrade_witness :
    negotiateValidationLayers true [] =
      { validationEnabled := false
        validationLayers := checkValidationLayerSupport [] getRequiredValidationLayers
        warningsEmitted := 1 } ∧
    negotiateValidationLayers true ["VK_LAYER_KHRONOS_validation"] =
      { validationEnabled := true
        validationLayers := checkValidationLayerSupport ["VK_LAYER_KHRONOS_validation"]
                              getRequiredValidationLayers
        warningsEmitted := 0 } :=
  ⟨(c5_validation_downgrade true []).1 rfl (by simp),
   (c5_validation_downgrade true ["VK_LAYER_KHRONOS_validation"]).2.1 rfl (by simp)⟩

/-! ## Theorem for claim C2 -/

/-- Claim C2: device selection succeeds exactly when there is at least one
enumerated device, the configured id is within the raw enumerated list, at
least one candidate passes both the required-extension and queue-family
filters, and the id is within the valid-candidate list; on success the
selected device is exactly the element at ordinal index `deviceId` of the
valid-candidate list (no scoring heuristic). -/
theorem c2_device_selection (cfg : VulkanConfig) (physicalDevices : List PhysicalDevice) :
    ((selectPhysicalDevice cfg physicalDevices).isOk = true ↔
       (0 < physicalDevices.length ∧ cfg.deviceId < physicalDevices.length ∧
        0 < (physicalDevices.filter (deviceIsValid cfg.headless)).length ∧
        cfg.deviceId < (physicalDevices.filter (deviceIsValid cfg.headless)).length)) ∧
    (∀ d, selectPhysicalDevice cfg physicalDevices = Except.ok d →
       (physicalDevices.filter (deviceIsValid cfg.headless))[cfg.deviceId]? = some d) := by
  simp only [selectPhysicalDevice]
  split_ifs with h1 h2 h3 h4
  · exact ⟨⟨fun habs => by simp [Except.isOk, Except.toBool] at habs, fun hP => False.elim (by omega)⟩,
           fun d h => by simp at h⟩
  · exact ⟨⟨fun habs => by simp [Except.isOk, Except.toBool] at habs, fun hP => False.elim (by omega)⟩,
           fun d h => by simp at h⟩
  · exact ⟨⟨fun habs => by simp [Except.isOk, Except.toBool] at habs, fun hP => False.elim (by omega)⟩,
           fun d h => by simp at h⟩
  · exact ⟨⟨fun habs => by simp [Except.isOk, Except.toBool] at habs, fun hP => False.elim (by omega)⟩,
           fun d h => by simp at h⟩
  · have hid : cfg.deviceId < (physicalDevices.filter (deviceIsValid cfg.headless)).length := by
      omega
    rw [List.getElem?_eq_getElem hid]
    refine ⟨Iff.intro (fun _ => ⟨by omega, by omega, by omega, hid⟩) (fun _ => rfl), ?_⟩
    intro d h
    have h2 : Except.ok (ε := Unit)
        ((physicalDevices.filter (deviceIsValid cfg.headless))[cfg.deviceId]) =
        Except.ok d := h
    injection h2 with h'
    rw [h']

/-- Witness for C2: among four enumerated devices with one invalid candidate,
`deviceId = 1` selects the second valid candidate. -/
theorem c2_device_selection_witness :
    (selectPhysicalDevice vulkanConfigExample physicalDevicesExample).isOk = true ∧
    (physicalDevicesExample.filter (deviceIsValid vulkanConfigExample.headless))[
        vulkanConfigExample.deviceId]? =
      some { deviceExtensions := ["d1"], queueFamilies := completeQueues } :=
  ⟨(c2_device_selection vulkanConfigExample physicalDevicesExample).1.mpr (by decide),
   (c2_device_selection vulkanConfigExample physicalDevicesExample).2
     { deviceExtensions := ["d1"], queueFamilies := completeQueues } rfl⟩

/-! ## Theorem for claim C1 -/

/-- Claim C1 concerns the rollback invariant of the resource bootstrap; the
code violates it.  Injecting an allocation failure at step 1 (vkCreateBuffer
for the staging buffer, after the descriptor pool was acquired at step 0)
makes the constructor throw while the descriptor pool is still held, and
injecting it at step 7 (vkCreateFence) leaks all six earlier acquisitions:
the failed bootstrap does leave acquired native handles unreleased. -/
theorem c1_bootstrap_leak :
    runResourceBootstrap (some 1) = Except.error [VkResource.descriptorPool] ∧
    runResourceBootstrap (some 7) = Except.error
      [VkResource.descriptorPool, VkResource.stagingBuffer, VkResource.stagingBufferMemory,
       VkResource.stagingBufferMapping, VkResource.commandPool, VkResource.commandBuffer] ∧
    ([VkResource.descriptorPool] : List VkResource) ≠ [] := by
  refine ⟨rfl, rfl, by decide⟩

/-! ## Supporting lemmas about the NVML poll -/

theorem updateNvml_suppressed (q : NvmlQueryResults) (c : TelemetryCache) :
    (updateTelemetryFromNvml q c true).2.1 = true ∧
    (updateTelemetryFromNvml q c true).2.2 = [] := by
  rcases q with ⟨ps, t, u, b⟩
  cases ps <;> cases t <;> cases u <;> cases b <;>
    simp [updateTelemetryFromNvml]

theorem updateNvml_warning_bound (q : NvmlQueryResults) (c : TelemetryCache) (e : Bool) :
    ((updateTelemetryFromNvml q c e).2.2).length ≤ 1 ∧
    ((updateTelemetryFromNvml q c e).2.2 ≠ [] → (updateTelemetryFromNvml q c e).2.1 = true) := by
  rcases q with ⟨ps, t, u, b⟩
  cases e <;> cases ps <;> cases t <;> cases u <;> cases b <;>
    simp [updateTelemetryFromNvml]

theorem updateNvml_thermal_retention (q : NvmlQueryResults) (c : TelemetryCache) (e : Bool)
    (h : q.temperature = none) :
    (updateTelemetryFromNvml q c e).1.thermalState = c.thermalState := by
  rcases q with ⟨ps, t, u, b⟩
  cases t with
  | none =>
    cases e <;> cases ps <;> cases u <;> cases b <;>
      simp [updateTelemetryFromNvml]
  | some t0 => cases h

theorem updateNvml_lowPower_retention (q : NvmlQueryResults) (c : TelemetryCache) (e : Bool)
    (hps : q.powerState = none) (hub : q.powerUsage = none ∨ q.powerLimit = none) :
    (updateTelemetryFromNvml q c e).1.lowPowerStatus = c.lowPowerStatus := by
  rcases q with ⟨ps, t, u, b⟩
  subst hps
  rcases hub with hu | hb
  · subst hu
    cases e <;> cases t <;> cases b <;> simp [updateTelemetryFromNvml]
  · subst hb
    cases e <;> cases t <;> cases u <;> simp [updateTelemetryFromNvml]

theorem runNvmlPolls_suppressed (qs : List NvmlQueryResults) (c : TelemetryCache) :
    (runNvmlPolls qs c true).2.1 = true ∧ (runNvmlPolls qs c true).2.2 = [] := by
  induction qs generalizing c with
  | nil => simp [runNvmlPolls]
  | cons q rest ih =>
    rcases hu : updateTelemetryFromNvml q c true with ⟨c1, e1, w1⟩
    have hs := updateNvml_suppressed q c
    rw [hu] at hs
    obtain ⟨he1, hw1⟩ := hs
    simp only at he1 hw1
    subst he1 hw1
    simp only [runNvmlPolls, hu]
    rcases hr : runNvmlPolls rest c1 true with ⟨c2, e2, w2⟩
    have hrec := ih c1
    rw [hr] at hrec
    simpa using hrec

theorem runNvmlPolls_warning_bound (qs : List NvmlQueryResults) (c : TelemetryCache) :
    ((runNvmlPolls qs c false).2.2).length ≤ 1 := by
  induction qs generalizing c with
  | nil => simp [runNvmlPolls]
  | cons q rest ih =>
    rcases hu : updateTelemetryFromNvml q c false with ⟨c1, e1, w1⟩
    have hb := updateNvml_warning_bound q c false
    rw [hu] at hb
    obtain ⟨hlen, hflag⟩ := hb
    simp only at hlen hflag
    simp only [runNvmlPolls, hu]
    cases hw1 : w1 with
    | nil =>
      subst hw1
      cases he1 : e1 with
      | false =>
        subst he1
        rcases hr : runNvmlPolls rest c1 false with ⟨c2, e2, w2⟩
        have := ih c1
        rw [hr] at this
        simpa using this
      | true =>
        subst he1
        rcases hr : runNvmlPolls rest c1 true with ⟨c2, e2, w2⟩
        have := runNvmlPolls_suppressed rest c1
        rw [hr] at this
        simp only at this
        simp [hr, this.2]
    | cons x xs =>
      have he1 : e1 = true := hflag (by simp [hw1])
      subst he1
      rcases hr : runNvmlPolls rest c1 true with ⟨c2, e2, w2⟩
      have hsup := runNvmlPolls_suppressed rest c1
      rw [hr] at hsup
      simp only at hsup
      rw [hw1] at hlen
      simp only [hr, hsup.2]
      simp only [List.append_nil]
      omega

/-! ## Supporting lemmas about the browser refresh -/

theorem refresh_thermal_retention (lh th : Int) (s : WebGPUTelemetryState) (h : th < 0) :
    (refreshTelemetry lh th s).1.thermalState = s.thermalState := by
  have hth : ¬(th ≥ 0) := by omega
  simp only [refreshTelemetry, hth, if_false]
  split_ifs <;> simp

theorem refresh_lowPower_retention (lh th : Int) (s : WebGPUTelemetryState) (h : lh < 0) :
    (refreshTelemetry lh th s).1.lowPowerStatus = s.lowPowerStatus := by
  have hlh : ¬(lh ≥ 0) := by omega
  simp only [refreshTelemetry, hlh, if_false]
  split_ifs <;> simp

theorem refresh_lowPower_counts (lh th : Int) (s : WebGPUTelemetryState) :
    ((refreshTelemetry lh th s).2.count WebGPUWarning.lowPower =
       if s.lowPowerWarningLogged = false ∧ lh < 0 then 1 else 0) ∧
    ((refreshTelemetry lh th s).1.lowPowerWarningLogged =
       (s.lowPowerWarningLogged || decide (lh < 0))) := by
  by_cases hlh : lh ≥ 0
  · have hneg : ¬(lh < 0) := by omega
    by_cases hl : s.lowPowerWarningLogged <;> by_cases hth : th ≥ 0 <;>
      by_cases ht : s.thermalWarningLogged <;>
        simp [refreshTelemetry, hlh, hneg, hl, hth, ht, List.count_cons]
  · have hneg : lh < 0 := by omega
    by_cases hl : s.lowPowerWarningLogged <;> by_cases hth : th ≥ 0 <;>
      by_cases ht : s.thermalWarningLogged <;>
        simp [refreshTelemetry, hlh, hneg, hl, hth, ht, List.count_cons]

theorem refresh_thermal_counts (lh th : Int) (s : WebGPUTelemetryState) :
    ((refreshTelemetry lh th s).2.count WebGPUWarning.thermal =
       if s.thermalWarningLogged = false ∧ th < 0 then 1 else 0) ∧
    ((refreshTelemetry lh th s).1.thermalWarningLogged =
       (s.thermalWarningLogged || decide (th < 0))) := by
  by_cases hth : th ≥ 0
  · have hneg : ¬(th < 0) := by omega
    by_cases hl : s.lowPowerWarningLogged <;> by_cases hlh : lh ≥ 0 <;>
      by_cases ht : s.thermalWarningLogged <;>
        simp [refreshTelemetry, hlh, hneg, hl, hth, ht, List.count_cons]
  · have hneg : th < 0 := by omega
    by_cases hl : s.lowPowerWarningLogged <;> by_cases hlh : lh ≥ 0 <;>
      by_cases ht : s.thermalWarningLogged <;>
        simp [refreshTelemetry, hlh, hneg, hl, hth, ht, List.count_cons]

theorem runWebGPU_lowPower_bound (hints : List (Int × Int)) (s : WebGPUTelemetryState) :
    ((runWebGPURefreshes hints s).2.count WebGPUWarning.lowPower ≤
       if s.lowPowerWarningLogged then 0 else 1) := by
  induction hints generalizing s with
  | nil => simp [runWebGPURefreshes]
  | cons p rest ih =>
    rcases p with ⟨lh, th⟩
    rcases hu : refreshTelemetry lh th s with ⟨s1, w1⟩
    have hc := refresh_lowPower_counts lh th s
    rw [hu] at hc
    obtain ⟨hcount, hflag⟩ := hc
    simp only at hcount hflag
    simp only [runWebGPURefreshes, hu]
    rcases hr : runWebGPURefreshes rest s1 with ⟨s2, w2⟩
    have hrec := ih s1
    rw [hr] at hrec
    simp only at hrec
    simp only [List.count_append]
    rw [hcount, hflag] at *
    by_cases hl : s.lowPowerWarningLogged <;> by_cases hneg : lh < 0 <;>
      simp [hl, hneg] at hrec ⊢ <;> omega

theorem runWebGPU_thermal_bound (hints : List (Int × Int)) (s : WebGPUTelemetryState) :
    ((runWebGPURefreshes hints s).2.count WebGPUWarning.thermal ≤
       if s.thermalWarningLogged then 0 else 1) := by
  induction hints generalizing s with
  | nil => simp [runWebGPURefreshes]
  | cons p rest ih =>
    rcases p with ⟨lh, th⟩
    rcases hu : refreshTelemetry lh th s with ⟨s1, w1⟩
    have hc := refresh_thermal_counts lh th s
    rw [hu] at hc
    obtain ⟨hcount, hflag⟩ := hc
    simp only at hcount hflag
    simp only [runWebGPURefreshes, hu]
    rcases hr : runWebGPURefreshes rest s1 with ⟨s2, w2⟩
    have hrec := ih s1
    rw [hr] at hrec
    simp only at hrec
    simp only [List.count_append]
    rw [hcount, hflag] at *
    by_cases hl : s.thermalWarningLogged <;> by_cases hneg : th < 0 <;>
      simp [hl, hneg] at hrec ⊢ <;> omega

/-! ## Theorems for claims C4 and C10 -/

/-- Counterexample to claim C4 as stated: in a fresh session (suppressed-error
flag clear) whose first poll fails both the power-state and the temperature
queries, the temperature error class fails for the first time yet logs no
warning — the single shared `providerErrorLogged` flag, set by the
power-state warning moments earlier in the same poll, suppresses it.  So a
warning is not logged "the first time that provider-error-class fails". -/
theorem c4_counterexample :
    nvmlFirstFailureExample.temperature = none ∧
    (updateTelemetryFromNvml nvmlFirstFailureExample telemetryCacheInit false).2.2 =
      [NvmlWarning.powerState] ∧
    NvmlWarning.temperature ∉
      (updateTelemetryFromNvml nvmlFirstFailureExample telemetryCacheInit false).2.2 := by
  refine ⟨rfl, rfl, by decide⟩

/-- Claim C4 as amended: a failed provider query is never escalated and never
fatal, and the affected snapshot field keeps its last-known value; warning
suppression is per error-class per session in the WebGPU provider (each class
warns exactly once, the first time it fails, and is suppressed thereafter),
but in the NVML provider one shared flag suppresses every provider warning
after the first, so a session logs at most one provider warning in total
rather than one per class. -/
theorem c4_warning_suppression :
    (∀ (q : NvmlQueryResults) (c : TelemetryCache) (e : Bool), q.temperature = none →
       (updateTelemetryFromNvml q c e).1.thermalState = c.thermalState) ∧
    (∀ (q : NvmlQueryResults) (c : TelemetryCache) (e : Bool), q.powerState = none →
       (q.powerUsage = none ∨ q.powerLimit = none) →
       (updateTelemetryFromNvml q c e).1.lowPowerStatus = c.lowPowerStatus) ∧
    (∀ (q : NvmlQueryResults) (c : TelemetryCache),
       (updateTelemetryFromNvml q c true).2.2 = []) ∧
    (∀ (q : NvmlQueryResults) (c : TelemetryCache) (e : Bool),
       ((updateTelemetryFromNvml q c e).2.2).length ≤ 1) ∧
    (∀ (qs : List NvmlQueryResults) (c : TelemetryCache),
       ((runNvmlPolls qs c false).2.2).length ≤ 1) ∧
    (∀ (lh th : Int) (s : WebGPUTelemetryState), th < 0 →
       (refreshTelemetry lh th s).1.thermalState = s.thermalState) ∧
    (∀ (lh th : Int) (s : WebGPUTelemetryState), lh < 0 →
       (refreshTelemetry lh th s).1.lowPowerStatus = s.lowPowerStatus) ∧
    (∀ (lh th : Int) (s : WebGPUTelemetryState),
       (refreshTelemetry lh th s).2.count WebGPUWarning.lowPower =
         if s.lowPowerWarningLogged = false ∧ lh < 0 then 1 else 0) ∧
    (∀ (lh th : Int) (s : WebGPUTelemetryState),
       (refreshTelemetry lh th s).2.count WebGPUWarning.thermal =
         if s.thermalWarningLogged = false ∧ th < 0 then 1 else 0) ∧
    (∀ hints : List (Int × Int),
       (runWebGPURefreshes hints webGPUConstructedState).2.count WebGPUWarning.lowPower ≤ 1 ∧
       (runWebGPURefreshes hints webGPUConstructedState).2.count WebGPUWarning.thermal ≤ 1) :=
  ⟨fun q c e h => updateNvml_thermal_retention q c e h,
   fun q c e h1 h2 => updateNvml_lowPower_retention q c e h1 h2,
   fun q c => (updateNvml_suppressed q c).2,
   fun q c e => (updateNvml_warning_bound q c e).1,
   fun qs c => runNvmlPolls_warning_bound qs c,
   fun lh th s h => refresh_thermal_retention lh th s h,
   fun lh th s h => refresh_lowPower_retention lh th s h,
   fun lh th s => (refresh_lowPower_counts lh th s).1,
   fun lh th s => (refresh_thermal_counts lh th s).1,
   fun hints =>
     ⟨by simpa [webGPUConstructedState] using
        runWebGPU_lowPower_bound hints webGPUConstructedState,
      by simpa [webGPUConstructedState] using
        runWebGPU_thermal_bound hints webGPUConstructedState⟩⟩

/-- Witness for C4 (amended) at concrete inputs: a failed temperature query
retains the thermal bucket; the WebGPU provider warns exactly once for the
low-power class the first time its hint is missing; and a two-refresh WebGPU
session with the hint missing both times still logs at most one low-power
warning. -/
theorem c4_warning_suppression_witness :
    (updateTelemetryFromNvml nvmlFirstFailureExample telemetryCacheInit false).1.thermalState = 0 ∧
    (refreshTelemetry (-1) 2 webGPUConstructedState).2.count WebGPUWarning.lowPower = 1 ∧
    (runWebGPURefreshes [(-1, -1), (-1, -1)] webGPUConstructedState).2.count
        WebGPUWarning.lowPower ≤ 1 := by
  have h := c4_warning_suppression
  refine ⟨(h.1 nvmlFirstFailureExample telemetryCacheInit false rfl).trans rfl, ?_, ?_⟩
  · exact (h.2.2.2.2.2.2.2.1 (-1) 2 webGPUConstructedState).trans (by decide)
  · exact (h.2.2.2.2.2.2.2.2.2 [(-1, -1), (-1, -1)]).1

/-- Claim C10: within one NVML poll, when the power-state query and both
power usage/budget queries succeed, the final published low-power status is
the power-budget classification (the third block overwrites the p-state
result stored by the first); the p-state classification is final only when
the usage or the budget query fails. -/
theorem c10_budget_overwrites_pstate (q : NvmlQueryResults) (c : TelemetryCache) (e : Bool) :
    (∀ p u b, q.powerState = some p → q.powerUsage = some u → q.powerLimit = some b →
       (updateTelemetryFromNvml q c e).1.lowPowerStatus = IsLowPowerFromPowerBudget u b 30) ∧
    (∀ p, q.powerState = some p → (q.powerUsage = none ∨ q.powerLimit = none) →
       (updateTelemetryFromNvml q c e).1.lowPowerStatus = IsLowPowerFromPState p) := by
  rcases q with ⟨ps, t, u, b⟩
  constructor
  · intro p u0 b0 hps hu hb
    simp only at hps hu hb
    subst hps hu hb
    cases t <;> cases e <;> simp [updateTelemetryFromNvml]
  · intro p hps hub
    simp only at hps
    subst hps
    rcases hub with hu | hb
    · simp only at hu
      subst hu
      cases t <;> cases e <;> cases b <;> simp [updateTelemetryFromNvml]
    · simp only at hb
      subst hb
      cases t <;> cases e <;> cases u <;> simp [updateTelemetryFromNvml]

/-- Witness for C10: with p-state 9 (low power) but a 66 percent budget
utilization, the published status is the budget classification (not low
power); with the usage query failing, the p-state classification stands. -/
theorem c10_budget_overwrites_pstate_witness :
    (updateTelemetryFromNvml
       { powerState := some 9, temperature := some 50
         powerUsage := some 40000, powerLimit := some 60000 }
       telemetryCacheInit false).1.lowPowerStatus = IsLowPowerFromPowerBudget 40000 60000 30 ∧
    (updateTelemetryFromNvml
       { powerState := some 9, temperature := some 50
         powerUsage := none, powerLimit := some 60000 }
       telemetryCacheInit false).1.lowPowerStatus = IsLowPowerFromPState 9 :=
  ⟨(c10_budget_overwrites_pstate
      { powerState := some 9, temperature := some 50
        powerUsage := some 40000, powerLimit := some 60000 }
      telemetryCacheInit false).1 9 40000 60000 rfl rfl rfl,
   (c10_budget_overwrites_pstate
      { powerState := some 9, temperature := some 50
        powerUsage := none, powerLimit := some 60000 }
      telemetryCacheInit false).2 9 rfl (Or.inl rfl)⟩

/-! ## Theorems for claims C8 and C9 -/

theorem telemetryOps_worker_inv (ops : List TelemetryOp) :
    (runTelemetryOps ops).activeWorkers =
      if (runTelemetryOps ops).running then 1 else 0 := by
  suffices h : ∀ r : TelemetryRuntime, r.activeWorkers = (if r.running then 1 else 0) →
      ∀ ops2 : List TelemetryOp, (ops2.foldl applyTelemetryOp r).activeWorkers =
        if (ops2.foldl applyTelemetryOp r).running then 1 else 0 by
    exact h telemetryRuntimeInit (by simp [telemetryRuntimeInit]) ops
  intro r hr ops2
  induction ops2 generalizing r with
  | nil => simpa using hr
  | cons op rest ih =>
    simp only [List.foldl_cons]
    apply ih
    cases op with
    | start =>
      simp only [applyTelemetryOp, startTelemetryPolling]
      by_cases h : r.running <;> simp [h] at hr ⊢ <;> omega
    | stop =>
      simp only [applyTelemetryOp, stopTelemetryPolling]
      by_cases h : r.running <;> simp [h] at hr ⊢ <;> omega

/-- Claim C8: the scheduler is the two-state machine with initial state
Stopped — `start` is a no-op when already running (so at most one worker ever
exists: under any operation sequence the worker count is one exactly while
running), `start` from Stopped sets `running` and clears the suppressed-error
flag, after `stop` returns the state is Stopped with no live worker, and in
the cooperative model a fired callback with a null self-reference or a
cleared `telemetryActive` flag neither polls nor reschedules. -/
theorem c8_scheduler_state_machine :
    (∀ r : TelemetryRuntime, r.running = true → startTelemetryPolling r = r) ∧
    (∀ r : TelemetryRuntime, r.running = false →
       (startTelemetryPolling r).running = true ∧
       (startTelemetryPolling r).providerErrorLogged = false) ∧
    (∀ r : TelemetryRuntime, (stopTelemetryPolling r).running = false) ∧
    (∀ ops : List TelemetryOp,
       (runTelemetryOps ops).activeWorkers =
         if (runTelemetryOps ops).running then 1 else 0) ∧
    (∀ ops : List TelemetryOp,
       (stopTelemetryPolling (runTelemetryOps ops)).activeWorkers = 0) ∧
    (∀ lh th : Int, telemetryPump none lh th = (none, false, false)) ∧
    (∀ (s : WebGPUTelemetryState) (lh th : Int), s.telemetryActive = false →
       telemetryPump (some s) lh th = (some s, false, false)) := by
  refine ⟨?_, ?_, ?_, telemetryOps_worker_inv, ?_, ?_, ?_⟩
  · intro r h
    simp [startTelemetryPolling, h]
  · intro r h
    simp [startTelemetryPolling, h]
  · intro r
    simp only [stopTelemetryPolling]
    by_cases h : r.running <;> simp [h]
  · intro ops
    have hinv := telemetryOps_worker_inv ops
    by_cases h : (runTelemetryOps ops).running <;>
      simp [stopTelemetryPolling, h] at hinv ⊢ <;> omega
  · intro lh th
    rfl
  · intro s lh th h
    simp [telemetryPump, h]

/-- Witness for C8 at concrete states: `start` on a running state is the
identity; `start` from the initial state runs with a cleared flag; a
start/stop/start sequence followed by `stop` ends with no worker; and the
pump is a no-op on a null self and on a deactivated state. -/
theorem c8_scheduler_state_machine_witness :
    startTelemetryPolling { running := true, providerErrorLogged := true, activeWorkers := 1 } =
      { running := true, providerErrorLogged := true, activeWorkers := 1 } ∧
    (startTelemetryPolling telemetryRuntimeInit).running = true ∧
    (stopTelemetryPolling
       (runTelemetryOps [TelemetryOp.start, TelemetryOp.stop, TelemetryOp.start])).activeWorkers
      = 0 ∧
    telemetryPump none 0 0 = (none, false, false) ∧
    telemetryPump (some { webGPUConstructedState with telemetryActive := false }) 0 0 =
      (some { webGPUConstructedState with telemetryActive := false }, false, false) := by
  have h := c8_scheduler_state_machine
  exact ⟨h.1 _ rfl, (h.2.1 telemetryRuntimeInit rfl).1,
         h.2.2.2.2.1 [TelemetryOp.start, TelemetryOp.stop, TelemetryOp.start],
         h.2.2.2.2.2.1 0 0,
         h.2.2.2.2.2.2 { webGPUConstructedState with telemetryActive := false } 0 0 rfl⟩

/-- Claim C9: when the NVML chain cannot commit (library missing, wrong
vendor, or a failed init/device bind) and the tooling-info chain cannot
commit (capability absent or function pointer unavailable), the telemetry
fields stay at the constructor defaults — low power false and thermal bucket
0 — and no polling worker is started. -/
theorem c9_no_provider_defaults (env : VulkanTelemetryEnv)
    (hnvml : env.hasNvmlBuild = false ∨ env.vendorIsNvidia = false ∨
             env.nvmlInitOk = false ∨ env.nvmlDeviceOk = false)
    (htool : env.toolingExtensionSupported = false ∨ env.toolingFnAvailable = false) :
    telemetryInit env =
      { provider := Provider.NONE
        cache := { lowPowerStatus := false, thermalState := 0 }
        runtime := telemetryRuntimeInit } := by
  rcases env with ⟨hb, vn, io, dk, ts, fa, q, tq⟩
  simp only at hnvml htool
  cases hb <;> cases vn <;> cases io <;> cases dk <;> cases ts <;> cases fa <;>
    simp_all [telemetryInit, setupNvmlTelemetry, telemetryRuntimeInit]

/-- Witness for C9 at the concrete no-provider environment. -/
theorem c9_no_provider_defaults_witness :
    telemetryInit telemetryEnvNoneExample =
      { provider := Provider.NONE
        cache := { lowPowerStatus := false, thermalState := 0 }
        runtime := telemetryRuntimeInit } :=
  c9_no_provider_defaults telemetryEnvNoneExample (Or.inl rfl) (Or.inl rfl)

end JetstreamSpec
